import Mathlib

/-!
Shallow embedding of the dashboard-linter core (package lint): the tolerant
JSON decoders of the dashboard model (lint/lint.go) and the panel-units rule
(the rules file) over that model.  JSON values that have already passed the
Go JSON parser are modelled by the inductive Json; a raw byte buffer that may
fail to parse is modelled by Option Json (none stands for malformed bytes) or
by RawMessage where a nil RawMessage is also possible.  Go functions that can
fail are modelled with GoOutcome, which distinguishes a returned error from a
runtime panic (a failed type assertion or an out-of-range index).
-/

/-- A JSON value as decoded by encoding/json into interface-typed Go values:
null becomes the nil interface, numbers become numeric values (modelled as
integers, which is enough for the shape distinctions the linter makes),
objects become maps and arrays become slices. Json.null also plays the role
of the nil interface value of Go. -/
inductive Json where
  | null : Json
  | bool : Bool → Json
  | num : Int → Json
  | str : String → Json
  | arr : List Json → Json
  | obj : List (String × Json) → Json

/-- Outcome of a Go computation: a normal result, a returned error, or a
runtime panic (failed type assertion, index out of range). -/
inductive GoOutcome (α : Type) where
  | ok : α → GoOutcome α
  | err : String → GoOutcome α
  | panic : String → GoOutcome α
deriving DecidableEq

def GoOutcome.isOk {α : Type} : GoOutcome α → Bool
  | .ok _ => true
  | _ => false

def GoOutcome.isErr {α : Type} : GoOutcome α → Bool
  | .err _ => true
  | _ => false

def GoOutcome.isPanic {α : Type} : GoOutcome α → Bool
  | .panic _ => true
  | _ => false

/-- Lookup in a decoded Go map: when the original JSON object held duplicate
keys the Go map keeps the last occurrence, so the lookup finds the last
binding of the key. -/
def goMapGet (kvs : List (String × Json)) (k : String) : Option Json :=
  (kvs.reverse.find? (fun kv => kv.fst == k)).map (fun kv => kv.snd)

/-- Rendering of an interface value by the percent-v verb of fmt, as used in
the error messages of the decoders; only its existence matters to the
claims, so composite values are abbreviated. -/
def goFmtV : Json → String
  | Json.null => "<nil>"
  | Json.bool true => "true"
  | Json.bool false => "false"
  | Json.num n => toString n
  | Json.str s => s
  | Json.arr _ => "[...]"
  | Json.obj _ => "map[...]"

def Json.isNull : Json → Bool
  | Json.null => true
  | _ => false

def Json.isStr : Json → Bool
  | Json.str _ => true
  | _ => false

def Json.isArr : Json → Bool
  | Json.arr _ => true
  | _ => false

def Json.isObj : Json → Bool
  | Json.obj _ => true
  | _ => false

namespace Lint

/-- Severity is an int in lint.go, with iota-numbered constants. -/
abbrev Severity := Int

def Success : Severity := 0

def Exclude : Severity := 1

def Warning : Severity := 2

def Error : Severity := 3

def Quiet : Severity := 4

/-- Datasource is a string in lint.go; its UnmarshalJSON normalizes the
three accepted JSON shapes. The input is a parsed JSON value since the
enclosing document already passed the parser. -/
def Datasource.unmarshalJSON (j : Json) : GoOutcome String :=
  match j with
  | Json.null => GoOutcome.ok ""
  | Json.str s => GoOutcome.ok s
  | Json.obj kvs =>
    match goMapGet kvs "uid" with
    | none => GoOutcome.err "invalid type for field \x27datasource\x27: missing uid field"
    | some (Json.str u) => GoOutcome.ok u
    | some _ => GoOutcome.err "invalid type for field \x27datasource\x27: invalid uid field type, should be string"
  | v => GoOutcome.err ("invalid type for field \x27datasource\x27: " ++ goFmtV v)

structure TemplateValue where
  text : String
  value : String
deriving DecidableEq

/-- The per-key type switch of TemplateValue.UnmarshalJSON: a string is used
verbatim; on a non-empty array the code asserts the first element to a
string, which panics when the element is not a string; on an empty array the
index expression itself panics; every other shape returns an error. -/
def decodeStrOrFirstOfArray (v : Json) (field : String) : GoOutcome String :=
  match v with
  | Json.str s => GoOutcome.ok s
  | Json.arr [] => GoOutcome.panic "runtime error: index out of range"
  | Json.arr (Json.str s :: _) => GoOutcome.ok s
  | Json.arr (_ :: _) => GoOutcome.panic "interface conversion: interface is not string"
  | v2 => GoOutcome.err ("invalid type for field \x27" ++ field ++ "\x27: " ++ goFmtV v2)

/-- Second half of TemplateValue.UnmarshalJSON: the handling of the value
key after the text key has been handled. -/
def TemplateValue.handleValue (t : TemplateValue) (kvs : List (String × Json)) : GoOutcome TemplateValue :=
  match goMapGet kvs "value" with
  | none => GoOutcome.ok t
  | some v =>
    match decodeStrOrFirstOfArray v "value" with
    | GoOutcome.ok s => GoOutcome.ok ⟨t.text, s⟩
    | GoOutcome.err m => GoOutcome.err m
    | GoOutcome.panic m => GoOutcome.panic m

/-- TemplateValue.UnmarshalJSON of lint.go: the buffer is decoded into a Go
map (JSON null gives a nil map, a non-object is a decode error), then the
text and value keys are each accepted as a string or as the first element of
an array. -/
def TemplateValue.unmarshalJSON (t : TemplateValue) (j : Json) : GoOutcome TemplateValue :=
  match j with
  | Json.null => TemplateValue.handleValue t []
  | Json.obj kvs =>
    (match goMapGet kvs "text" with
     | none => TemplateValue.handleValue t kvs
     | some tv =>
       match decodeStrOrFirstOfArray tv "text" with
       | GoOutcome.ok s => TemplateValue.handleValue ⟨s, t.value⟩ kvs
       | GoOutcome.err m => GoOutcome.err m
       | GoOutcome.panic m => GoOutcome.panic m)
  | v => GoOutcome.err ("json: cannot unmarshal " ++ goFmtV v ++ " into Go value of type map")

structure TemplateOption where
  templateValue : TemplateValue
  selected : Bool

structure Template where
  name : String
  label : String
  type : String
  query : String
  datasource : String
  multi : Bool
  allValue : String
  current : TemplateValue
  options : List TemplateOption
  refresh : Int

/-- The anonymous raw struct of Template.UnmarshalJSON: identical to Template
except that the query field is an interface value (Json.null when the key is
absent or JSON null, exactly as the nil interface in Go). -/
structure RawTemplate where
  name : String
  label : String
  type : String
  query : Json
  datasource : String
  multi : Bool
  allValue : String
  current : TemplateValue
  options : List TemplateOption
  refresh : Int

def zeroTemplateValue : TemplateValue := ⟨"", ""⟩

def zeroRawTemplate : RawTemplate :=
  ⟨"", "", "", Json.null, "", false, "", zeroTemplateValue, [], 0⟩

def zeroTemplate : Template :=
  ⟨"", "", "", "", "", false, "", zeroTemplateValue, [], 0⟩

/-- Decoding of a JSON value into a Go string field: JSON null is a no-op,
anything other than a string is a decode error. -/
def decodeGoString (v : Json) (cur : String) : GoOutcome String :=
  match v with
  | Json.str s => GoOutcome.ok s
  | Json.null => GoOutcome.ok cur
  | v2 => GoOutcome.err ("json: cannot unmarshal " ++ goFmtV v2 ++ " into Go value of type string")

def decodeGoBool (v : Json) (cur : Bool) : GoOutcome Bool :=
  match v with
  | Json.bool b => GoOutcome.ok b
  | Json.null => GoOutcome.ok cur
  | v2 => GoOutcome.err ("json: cannot unmarshal " ++ goFmtV v2 ++ " into Go value of type bool")

def decodeGoInt (v : Json) (cur : Int) : GoOutcome Int :=
  match v with
  | Json.num n => GoOutcome.ok n
  | Json.null => GoOutcome.ok cur
  | v2 => GoOutcome.err ("json: cannot unmarshal " ++ goFmtV v2 ++ " into Go value of type int")

/-- Decoding of one element of the options slice. TemplateOption embeds
TemplateValue, whose UnmarshalJSON method is promoted to TemplateOption, so
encoding/json calls it for the whole element and the selected field is never
assigned (it stays false). -/
def decodeTemplateOption (v : Json) : GoOutcome TemplateOption :=
  match TemplateValue.unmarshalJSON zeroTemplateValue v with
  | GoOutcome.ok tv => GoOutcome.ok ⟨tv, false⟩
  | GoOutcome.err m => GoOutcome.err m
  | GoOutcome.panic m => GoOutcome.panic m

def decodeTemplateOptionList : List Json → GoOutcome (List TemplateOption)
  | [] => GoOutcome.ok []
  | x :: rest =>
    match decodeTemplateOption x with
    | GoOutcome.ok o =>
      match decodeTemplateOptionList rest with
      | GoOutcome.ok os => GoOutcome.ok (o :: os)
      | GoOutcome.err m => GoOutcome.err m
      | GoOutcome.panic m => GoOutcome.panic m
    | GoOutcome.err m => GoOutcome.err m
    | GoOutcome.panic m => GoOutcome.panic m

def decodeGoOptions (v : Json) (cur : List TemplateOption) : GoOutcome (List TemplateOption) :=
  match v with
  | Json.null => GoOutcome.ok cur
  | Json.arr xs => decodeTemplateOptionList xs
  | v2 => GoOutcome.err ("json: cannot unmarshal " ++ goFmtV v2 ++ " into Go value of type slice")

/-- Decoding of one key of the raw template object into the matching struct
field; keys that match no field are skipped. The query field has interface
type, so its raw value is stored as is. -/
def setRawTemplateField (acc : RawTemplate) (k : String) (v : Json) : GoOutcome RawTemplate :=
  if k == "name" then
    match decodeGoString v acc.name with
    | GoOutcome.ok s => GoOutcome.ok ⟨s, acc.label, acc.type, acc.query, acc.datasource, acc.multi, acc.allValue, acc.current, acc.options, acc.refresh⟩
    | GoOutcome.err m => GoOutcome.err m
    | GoOutcome.panic m => GoOutcome.panic m
  else if k == "label" then
    match decodeGoString v acc.label with
    | GoOutcome.ok s => GoOutcome.ok ⟨acc.name, s, acc.type, acc.query, acc.datasource, acc.multi, acc.allValue, acc.current, acc.options, acc.refresh⟩
    | GoOutcome.err m => GoOutcome.err m
    | GoOutcome.panic m => GoOutcome.panic m
  else if k == "type" then
    match decodeGoString v acc.type with
    | GoOutcome.ok s => GoOutcome.ok ⟨acc.name, acc.label, s, acc.query, acc.datasource, acc.multi, acc.allValue, acc.current, acc.options, acc.refresh⟩
    | GoOutcome.err m => GoOutcome.err m
    | GoOutcome.panic m => GoOutcome.panic m
  else if k == "query" then
    GoOutcome.ok ⟨acc.name, acc.label, acc.type, v, acc.datasource, acc.multi, acc.allValue, acc.current, acc.options, acc.refresh⟩
  else if k == "datasource" then
    match Datasource.unmarshalJSON v with
    | GoOutcome.ok s => GoOutcome.ok ⟨acc.name, acc.label, acc.type, acc.query, s, acc.multi, acc.allValue, acc.current, acc.options, acc.refresh⟩
    | GoOutcome.err m => GoOutcome.err m
    | GoOutcome.panic m => GoOutcome.panic m
  else if k == "multi" then
    match decodeGoBool v acc.multi with
    | GoOutcome.ok b => GoOutcome.ok ⟨acc.name, acc.label, acc.type, acc.query, acc.datasource, b, acc.allValue, acc.current, acc.options, acc.refresh⟩
    | GoOutcome.err m => GoOutcome.err m
    | GoOutcome.panic m => GoOutcome.panic m
  else if k == "allValue" then
    match decodeGoString v acc.allValue with
    | GoOutcome.ok s => GoOutcome.ok ⟨acc.name, acc.label, acc.type, acc.query, acc.datasource, acc.multi, s, acc.current, acc.options, acc.refresh⟩
    | GoOutcome.err m => GoOutcome.err m
    | GoOutcome.panic m => GoOutcome.panic m
  else if k == "current" then
    match TemplateValue.unmarshalJSON acc.current v with
    | GoOutcome.ok tv => GoOutcome.ok ⟨acc.name, acc.label, acc.type, acc.query, acc.datasource, acc.multi, acc.allValue, tv, acc.options, acc.refresh⟩
    | GoOutcome.err m => GoOutcome.err m
    | GoOutcome.panic m => GoOutcome.panic m
  else if k == "options" then
    match decodeGoOptions v acc.options with
    | GoOutcome.ok os => GoOutcome.ok ⟨acc.name, acc.label, acc.type, acc.query, acc.datasource, acc.multi, acc.allValue, acc.current, os, acc.refresh⟩
    | GoOutcome.err m => GoOutcome.err m
    | GoOutcome.panic m => GoOutcome.panic m
  else if k == "refresh" then
    match decodeGoInt v acc.refresh with
    | GoOutcome.ok n => GoOutcome.ok ⟨acc.name, acc.label, acc.type, acc.query, acc.datasource, acc.multi, acc.allValue, acc.current, acc.options, n⟩
    | GoOutcome.err m => GoOutcome.err m
    | GoOutcome.panic m => GoOutcome.panic m
  else
    GoOutcome.ok acc

def decodeRawTemplateFields : List (String × Json) → RawTemplate → GoOutcome RawTemplate
  | [], acc => GoOutcome.ok acc
  | (k, v) :: rest, acc =>
    match setRawTemplateField acc k v with
    | GoOutcome.ok acc2 => decodeRawTemplateFields rest acc2
    | GoOutcome.err m => GoOutcome.err m
    | GoOutcome.panic m => GoOutcome.panic m

/-- The unmarshal of the raw struct at the head of Template.UnmarshalJSON:
the object keys are decoded in input order into the matching fields; JSON
null is a no-op; a non-object buffer is a decode error. -/
def decodeRawTemplate (j : Json) : GoOutcome RawTemplate :=
  match j with
  | Json.null => GoOutcome.ok zeroRawTemplate
  | Json.obj kvs => decodeRawTemplateFields kvs zeroRawTemplate
  | v => GoOutcome.err ("json: cannot unmarshal " ++ goFmtV v ++ " into Go value of type struct")

/-- The field assignments of Template.UnmarshalJSON from the raw struct:
every field except query is copied; query keeps the value the receiver
already had. -/
def Template.applyRaw (t : Template) (raw : RawTemplate) : Template :=
  ⟨raw.name, raw.label, raw.type, t.query, raw.datasource, raw.multi, raw.allValue, raw.current, raw.options, raw.refresh⟩

def Template.withQuery (t : Template) (q : String) : Template :=
  ⟨t.name, t.label, t.type, q, t.datasource, t.multi, t.allValue, t.current, t.options, t.refresh⟩

/-- Template.UnmarshalJSON of lint.go: decode the raw struct, copy its
fields, and then, unless the type is adhoc or custom, interrogate the raw
query value: a string is used verbatim; on a map the code asserts the query
key to a string, which panics when the key is absent or not a string; any
other value (including the nil interface left by an absent or null query
key) is a decode error. -/
def Template.unmarshalJSON (t : Template) (j : Json) : GoOutcome Template :=
  match decodeRawTemplate j with
  | GoOutcome.err m => GoOutcome.err m
  | GoOutcome.panic m => GoOutcome.panic m
  | GoOutcome.ok raw =>
    let t1 := Template.applyRaw t raw
    if t1.type != "adhoc" && t1.type != "custom" then
      match raw.query with
      | Json.str s => GoOutcome.ok (Template.withQuery t1 s)
      | Json.obj kvs =>
        match goMapGet kvs "query" with
        | some (Json.str s) => GoOutcome.ok (Template.withQuery t1 s)
        | _ => GoOutcome.panic "interface conversion: interface is not string"
      | v => GoOutcome.err ("invalid type for field \x27query\x27: " ++ goFmtV v)
    else GoOutcome.ok t1

structure OverrideProperty where
  id : String
  value : String
deriving DecidableEq

structure Override where
  overrideProperties : List OverrideProperty

structure Defaults where
  unit : String

structure FieldConfig where
  defaults : Defaults
  overrides : List Override

/-- Decoding of the first anonymous raw struct of
OverrideProperty.UnmarshalJSON: an id string field and a value string
field. The input buffer is an Option Json, none standing for bytes that are
not valid JSON. -/
def decodeIdValueString (buf : Option Json) : GoOutcome (String × String) :=
  match buf with
  | none => GoOutcome.err "invalid character in JSON input"
  | some Json.null => GoOutcome.ok ("", "")
  | some (Json.obj kvs) =>
    (match (goMapGet kvs "id").getD Json.null with
     | Json.str i =>
       (match (goMapGet kvs "value").getD Json.null with
        | Json.str v => GoOutcome.ok (i, v)
        | Json.null => GoOutcome.ok (i, "")
        | v2 => GoOutcome.err ("json: cannot unmarshal " ++ goFmtV v2 ++ " into Go value of type string"))
     | Json.null =>
       (match (goMapGet kvs "value").getD Json.null with
        | Json.str v => GoOutcome.ok ("", v)
        | Json.null => GoOutcome.ok ("", "")
        | v2 => GoOutcome.err ("json: cannot unmarshal " ++ goFmtV v2 ++ " into Go value of type string"))
     | v1 => GoOutcome.err ("json: cannot unmarshal " ++ goFmtV v1 ++ " into Go value of type string"))
  | some v => GoOutcome.err ("json: cannot unmarshal " ++ goFmtV v ++ " into Go value of type struct")

/-- Decoding of the second anonymous raw struct of
OverrideProperty.UnmarshalJSON: an id string field and a value int field. -/
def decodeIdValueInt (buf : Option Json) : GoOutcome (String × Int) :=
  match buf with
  | none => GoOutcome.err "invalid character in JSON input"
  | some Json.null => GoOutcome.ok ("", 0)
  | some (Json.obj kvs) =>
    (match (goMapGet kvs "id").getD Json.null with
     | Json.str i =>
       (match (goMapGet kvs "value").getD Json.null with
        | Json.num v => GoOutcome.ok (i, v)
        | Json.null => GoOutcome.ok (i, 0)
        | v2 => GoOutcome.err ("json: cannot unmarshal " ++ goFmtV v2 ++ " into Go value of type int"))
     | Json.null =>
       (match (goMapGet kvs "value").getD Json.null with
        | Json.num v => GoOutcome.ok ("", v)
        | Json.null => GoOutcome.ok ("", 0)
        | v2 => GoOutcome.err ("json: cannot unmarshal " ++ goFmtV v2 ++ " into Go value of type int"))
     | v1 => GoOutcome.err ("json: cannot unmarshal " ++ goFmtV v1 ++ " into Go value of type string"))
  | some v => GoOutcome.err ("json: cannot unmarshal " ++ goFmtV v ++ " into Go value of type struct")

/-- OverrideProperty.UnmarshalJSON of lint.go: it attempts the string-valued
raw struct, on failure the int-valued raw struct, and returns nil in every
branch; neither attempt is ever assigned back to the receiver, so the
receiver is returned unchanged whatever the input. -/
def OverrideProperty.unmarshalJSON (o : OverrideProperty) (buf : Option Json) : GoOutcome OverrideProperty :=
  match decodeIdValueString buf with
  | GoOutcome.ok _ => GoOutcome.ok o
  | _ =>
    match decodeIdValueInt buf with
    | GoOutcome.ok _ => GoOutcome.ok o
    | _ => GoOutcome.ok o

structure Target where
  idx : Int
  expr : String
  panelId : Int
  refId : String
  legendFormat : String

/-- Panel of lint.go: panels nest arbitrarily through the panels field, so
the type is a nested inductive. -/
inductive Panel where
  | mk : Int → String → String → List Target → String → String → List Panel → FieldConfig → Panel

def Panel.id : Panel → Int
  | Panel.mk i _ _ _ _ _ _ _ => i

def Panel.title : Panel → String
  | Panel.mk _ t _ _ _ _ _ _ => t

def Panel.targets : Panel → List Target
  | Panel.mk _ _ _ tg _ _ _ _ => tg

def Panel.type : Panel → String
  | Panel.mk _ _ _ _ _ ty _ _ => ty

def Panel.panels : Panel → List Panel
  | Panel.mk _ _ _ _ _ _ ps _ => ps

mutual

/-- Panel.GetPanels of lint.go: the panel itself followed by the recursive
flatten of its children, in order. -/
def Panel.getPanels : Panel → List Panel
  | Panel.mk i t d tg ds ty ps fc => Panel.mk i t d tg ds ty ps fc :: Panel.getPanelsList ps

/-- The append loop over a list of panels inside Panel.GetPanels and
Row.GetPanels. -/
def Panel.getPanelsList : List Panel → List Panel
  | [] => []
  | p :: rest => Panel.getPanels p ++ Panel.getPanelsList rest

end

structure Row where
  panels : List Panel

/-- Row.GetPanels of lint.go. -/
def Row.getPanels (r : Row) : List Panel :=
  Panel.getPanelsList r.panels

structure Dashboard where
  title : String
  templating : List Template
  rows : List Row
  panels : List Panel

def setTargetIdx (i : Nat) (t : Target) : Target :=
  ⟨Int.ofNat i, t.expr, t.panelId, t.refId, t.legendFormat⟩

/-- The index-assignment loop of Dashboard.GetPanels: every target of the
panel gets its zero-based position within the target list as its Idx. -/
def setTargetIdxs : Panel → Panel
  | Panel.mk i t d tg ds ty ps fc =>
    Panel.mk i t d (tg.enum.map (fun it => setTargetIdx it.fst it.snd)) ds ty ps fc

/-- Dashboard.GetPanels of lint.go: flatten the row-nested panels, then the
top-level panels, then assign each target of each flattened panel its
position index. -/
def Dashboard.getPanels (d : Dashboard) : List Panel :=
  ((d.rows.map Row.getPanels).flatten ++ Panel.getPanelsList d.panels).map setTargetIdxs

end Lint

namespace Rules

/-!
The panel-units rule file compiles against a newer dashboard model than the
one in lint/lint.go: there FieldConfig is a pointer on Panel, Defaults also
carries a raw mappings sub-document, OverrideProperty carries an
interface-typed value, and Panel carries a raw options sub-document. Those
declarations, and the rule plumbing (PanelRuleFunc, PanelRuleResults with
AddError, the panel type constants, StatOptions), are not under src, so they
are modelled from the spec below; the rule logic itself is translated from
the rule file.
-/

/-- A raw JSON sub-document (json.RawMessage): it can be the nil message,
bytes that do not parse as JSON, or a parsed JSON value. -/
inductive RawMessage where
  | absent : RawMessage
  | invalid : String → RawMessage
  | valid : Json → RawMessage

/-- Modelled from the spec: the rule-side OverrideProperty, an id string tag
plus a value whose JSON shape varies by id, held as an interface value
(Json.null plays the nil interface). -/
structure OverrideProperty where
  id : String
  value : Json

/-- Modelled from the spec: the rule-side Override record, an ordered
sequence of override properties. -/
structure Override where
  overrideProperties : List OverrideProperty

/-- Modelled from the spec: the rule-side Defaults record, a unit string and
a mappings payload of variant shape kept as a raw sub-document. -/
structure Defaults where
  unit : String
  mappings : RawMessage

/-- Modelled from the spec: the rule-side FieldConfig, a Defaults record
plus an ordered sequence of Override records. -/
structure FieldConfig where
  defaults : Defaults
  overrides : List Override

/-- Modelled from the spec: the rule-side Panel view — id, title, the type
tag, the raw options sub-document, and an optional FieldConfig (the field is
a pointer in the rule file, checked against nil). -/
structure Panel where
  id : Int
  title : String
  type : String
  options : RawMessage
  fieldConfig : Option FieldConfig

/-- Modelled from the spec: the dashboard as seen by a panel rule; only its
identity is consulted when a result is built. -/
structure Dashboard where
  title : String

/-- Modelled from the spec: one diagnostic result — dashboard identity,
panel identity, severity and free-text message. -/
structure RuleResult where
  severity : Lint.Severity
  dashboardTitle : String
  panelId : Int
  message : String
deriving DecidableEq

/-- Modelled from the spec: PanelRuleResults.AddError accumulates one
Error-severity result tagged with the dashboard and panel identity. -/
def addError (d : Dashboard) (p : Panel) (msg : String) : RuleResult :=
  ⟨Lint.Error, d.title, p.id, msg⟩

/-- Modelled from the spec: a panel rule as a value — name, description,
and a pure function from dashboard and panel to results. The function
outcome is a GoOutcome because the rule body can panic on a type
assertion. -/
structure PanelRuleFunc where
  name : String
  description : String
  fn : Dashboard → Panel → GoOutcome (List RuleResult)

/-- Modelled from the spec: the reduce-options carried in the options of a
stat panel; the fields selector is a string. -/
structure ReduceOptions where
  fields : String

/-- Modelled from the spec: the options sub-document of a stat panel. -/
structure StatOptions where
  reduceOptions : ReduceOptions

/-- Modelled from the spec: the panel type constants the rule matches on. -/
def panelTypeStat : String := "stat"

def panelTypeSingleStat : String := "singlestat"

def panelTypeGraph : String := "graph"

def panelTypeTimeTable : String := "table-with-time"

def panelTypeTimeSeries : String := "timeseries"

def panelTypeGauge : String := "gauge"

/-- Decoding of the reduceOptions value into ReduceOptions. -/
def decodeReduceOptions (v : Json) : GoOutcome ReduceOptions :=
  match v with
  | Json.null => GoOutcome.ok ⟨""⟩
  | Json.obj kvs =>
    (match (goMapGet kvs "fields").getD Json.null with
     | Json.str s => GoOutcome.ok ⟨s⟩
     | Json.null => GoOutcome.ok ⟨""⟩
     | v2 => GoOutcome.err ("json: cannot unmarshal " ++ goFmtV v2 ++ " into Go value of type string"))
  | v2 => GoOutcome.err ("json: cannot unmarshal " ++ goFmtV v2 ++ " into Go value of type struct")

/-- Decoding of a parsed options value into StatOptions. -/
def decodeStatOptionsJson (j : Json) : GoOutcome StatOptions :=
  match j with
  | Json.null => GoOutcome.ok ⟨⟨""⟩⟩
  | Json.obj kvs =>
    (match (goMapGet kvs "reduceOptions").getD Json.null with
     | Json.null => GoOutcome.ok ⟨⟨""⟩⟩
     | v =>
       match decodeReduceOptions v with
       | GoOutcome.ok ro => GoOutcome.ok ⟨ro⟩
       | GoOutcome.err m => GoOutcome.err m
       | GoOutcome.panic m => GoOutcome.panic m)
  | v => GoOutcome.err ("json: cannot unmarshal " ++ goFmtV v ++ " into Go value of type struct")

/-- The unmarshal of the panel options into StatOptions inside the rule: a
nil raw message and malformed bytes are decode errors. -/
def decodeStatOptions : RawMessage → GoOutcome StatOptions
  | RawMessage.absent => GoOutcome.err "unexpected end of JSON input"
  | RawMessage.invalid e => GoOutcome.err e
  | RawMessage.valid j => decodeStatOptionsJson j

/-- hasReduceOptionsNonNumericFields of the rule file: a non-empty fields
selector means the stat panel reduces over a non-numeric set. -/
def hasReduceOptionsNonNumericFields (reduceOpts : ReduceOptions) : Bool :=
  reduceOpts.fields != ""

/-- The stat-panel guard of the rule: skip when the options decode without
error and carry a non-empty fields selector. -/
def statSkip (p : Panel) : Bool :=
  match decodeStatOptions p.options with
  | GoOutcome.ok opts => hasReduceOptionsNonNumericFields opts.reduceOptions
  | _ => false

/-- The inner property loop of getConfiguredUnit: every property whose id is
unit overwrites the accumulator with its value asserted to a string; the
assertion panics when the value is not a string. -/
def scanUnitProps : List OverrideProperty → String → GoOutcome String
  | [], acc => GoOutcome.ok acc
  | o :: rest, acc =>
    if o.id == "unit" then
      match o.value with
      | Json.str s => scanUnitProps rest s
      | _ => GoOutcome.panic "interface conversion: interface is not string"
    else scanUnitProps rest acc

/-- The outer override loop of getConfiguredUnit, with the source guard on a
non-empty property list. -/
def scanUnitOverrides : List Override → String → GoOutcome String
  | [], acc => GoOutcome.ok acc
  | ov :: rest, acc =>
    if ov.overrideProperties.length > 0 then
      match scanUnitProps ov.overrideProperties acc with
      | GoOutcome.ok acc2 => scanUnitOverrides rest acc2
      | GoOutcome.err m => GoOutcome.err m
      | GoOutcome.panic m => GoOutcome.panic m
    else scanUnitOverrides rest acc

/-- getConfiguredUnit of the rule file: scan every override property with id
unit, keeping the value of the last one seen; when the scan leaves the empty
string, fall back to the non-empty Defaults unit of a present FieldConfig. -/
def getConfiguredUnit (p : Panel) : GoOutcome String :=
  match
    (match p.fieldConfig with
     | some fc => if fc.overrides.length > 0 then scanUnitOverrides fc.overrides "" else GoOutcome.ok ""
     | none => GoOutcome.ok "")
  with
  | GoOutcome.ok u =>
    if u == "" then
      match p.fieldConfig with
      | some fc => if fc.defaults.unit != "" then GoOutcome.ok fc.defaults.unit else GoOutcome.ok ""
      | none => GoOutcome.ok ""
    else GoOutcome.ok u
  | GoOutcome.err m => GoOutcome.err m
  | GoOutcome.panic m => GoOutcome.panic m

/-- The inner property loop of getValueMappings: the first property with id
mappings and a non-nil value is returned. -/
def scanMappingsProps : List OverrideProperty → Option Json
  | [] => none
  | o :: rest =>
    if o.id == "mappings" && !(o.value.isNull) then some o.value
    else scanMappingsProps rest

/-- The outer override loop of getValueMappings, with the source guard on a
non-empty property list. -/
def scanMappingsOverrides : List Override → Option Json
  | [] => none
  | ov :: rest =>
    if ov.overrideProperties.length > 0 then
      match scanMappingsProps ov.overrideProperties with
      | some v => some v
      | none => scanMappingsOverrides rest
    else scanMappingsOverrides rest

/-- getValueMappings of the rule file: an override property with id mappings
and non-nil value wins immediately; otherwise a non-nil Defaults mappings
raw message is unmarshalled, a parse failure being returned as the error
with the still-nil value. The pair mirrors the two Go return values, with
Json.null standing for the nil interface. -/
def getValueMappings (p : Panel) : Json × Option String :=
  match
    (match p.fieldConfig with
     | some fc => if fc.overrides.length > 0 then scanMappingsOverrides fc.overrides else none
     | none => none)
  with
  | some v => (v, none)
  | none =>
    match p.fieldConfig with
    | some fc =>
      (match fc.defaults.mappings with
       | RawMessage.absent => (Json.null, none)
       | RawMessage.invalid e => (Json.null, some e)
       | RawMessage.valid j => (j, none))
    | none => (Json.null, none)

/-- The type switch of the rule: the six panel types the rule inspects. -/
def isInScope (t : String) : Bool :=
  t == panelTypeStat || t == panelTypeSingleStat || t == panelTypeGraph ||
  t == panelTypeTimeTable || t == panelTypeTimeSeries || t == panelTypeGauge

/-- The validUnits catalog of the rule file, verbatim. -/
def validUnits : List String := [
  "none",
  "string",
  "short", "percent", "percentunit", "humidity", "dB", "hex0x", "hex", "sci", "locale", "pixel",
  "accMS2", "accFS2", "accG",
  "degree", "radian", "grad", "arcmin", "arcsec",
  "areaM2", "areaF2", "areaMI2",
  "flops", "mflops", "gflops", "tflops", "pflops", "eflops", "zflops", "yflops",
  "ppm", "conppb", "conngm3", "conngNm3", "conμgm3", "conμgNm3", "conmgm3", "conmgNm3", "congm3", "congNm3", "conmgdL", "conmmolL",
  "currencyUSD", "currencyGBP", "currencyEUR", "currencyJPY", "currencyRUB", "currencyUAH", "currencyBRL", "currencyDKK", "currencyISK", "currencyNOK", "currencySEK", "currencyCZK", "currencyCHF", "currencyPLN", "currencyBTC", "currencymBTC", "currencyμBTC", "currencyZAR", "currencyINR", "currencyKRW", "currencyIDR", "currencyPHP", "currencyVND",
  "bytes", "decbytes", "bits", "decbits", "kbytes", "deckbytes", "mbytes", "decmbytes", "gbytes", "decgbytes", "tbytes", "dectbytes", "pbytes", "decpbytes",
  "pps", "binBps", "Bps", "binbps", "bps", "KiBs", "Kibits", "KBs", "Kbits", "MiBs", "Mibits", "MBs", "Mbits", "GiBs", "Gibits", "GBs", "Gbits", "TiBs", "Tibits", "TBs", "Tbits", "PiBs", "Pibits", "PBs", "Pbits",
  "dateTimeAsIso", "dateTimeAsIsoNoDateIfToday", "dateTimeAsUS", "dateTimeAsUSNoDateIfToday", "dateTimeAsLocal",
  "dateTimeAsLocalNoDateIfToday", "dateTimeAsSystem", "dateTimeFromNow",
  "watt", "kwatt", "megwatt", "gwatt", "mwatt", "Wm2", "voltamp", "kvoltamp", "voltampreact", "kvoltampreact", "watth", "watthperkg", "kwatth", "kwattm", "amph", "kamph", "mamph", "joule", "ev", "amp", "kamp", "mamp", "volt", "kvolt", "mvolt", "dBm", "ohm", "kohm", "Mohm", "farad", "µfarad", "nfarad", "pfarad", "ffarad", "henry", "mhenry", "µhenry", "lumens",
  "flowgpm", "flowcms", "flowcfs", "flowcfm", "litreh", "flowlpm", "flowmlpm", "lux",
  "forceNm", "forcekNm", "forceN", "forcekN",
  "Hs", "KHs", "MHs", "GHs", "THs", "PHs", "EHs",
  "massmg", "massg", "masslb", "masskg", "masst",
  "lengthmm", "lengthin", "lengthft", "lengthm", "lengthkm", "lengthmi",
  "pressurembar", "pressurebar", "pressurekbar", "pressurepa", "pressurehpa", "pressurekpa", "pressurehg", "pressurepsi",
  "radbq", "radci", "radgy", "radrad", "radsv", "radmsv", "radusv", "radrem", "radexpckg", "radr", "radsvh", "radmsvh", "radusvh",
  "rotrpm", "rothz", "rotrads", "rotdegs",
  "celsius", "fahrenheit", "kelvin",
  "hertz", "ns", "µs", "ms", "s", "m", "h", "d", "dtdurationms", "dtdurations", "dthms", "dtdhms", "timeticks", "clockms", "clocks",
  "cps", "ops", "reqps", "rps", "wps", "iops", "cpm", "opm", "rpm", "wpm", "mps", "mpm",
  "velocityms", "velocitykmh", "velocitymph", "velocityknot",
  "mlitre", "litre", "m3", "Nm3", "dm3", "gallons",
  "bool", "bool_yes_no", "bool_on_off"]

/-- The rule body of NewPanelUnitsRule: skip out-of-scope panel types; for a
stat panel with a non-numeric fields selector return no results; resolve the
value mappings, recording a decode error as an Error result; return the
accumulated results when the resolved mappings are non-nil; otherwise
resolve the configured unit and pass only a non-empty unit found in the
catalog, adding the invalid-units Error result otherwise. -/
def unitsRuleFn (d : Dashboard) (p : Panel) : GoOutcome (List RuleResult) :=
  if isInScope p.type then
    if p.type == "stat" && statSkip p then GoOutcome.ok []
    else
      let vm := getValueMappings p
      let r1 : List RuleResult :=
        match vm.snd with
        | some e => [addError d p e]
        | none => []
      if vm.fst.isNull then
        match getConfiguredUnit p with
        | GoOutcome.ok u =>
          if u != "" && validUnits.contains u then GoOutcome.ok r1
          else GoOutcome.ok (r1 ++ [addError d p ("has no or invalid units defined: \x27" ++ u ++ "\x27")])
        | GoOutcome.err m => GoOutcome.err m
        | GoOutcome.panic m => GoOutcome.panic m
      else GoOutcome.ok r1
  else GoOutcome.ok []

/-- NewPanelUnitsRule of the rule file, as a rule value. -/
def NewPanelUnitsRule : PanelRuleFunc :=
  ⟨"panel-units-rule", "Checks that each panel uses has valid units defined.", unitsRuleFn⟩

/-- Spec-side characterization for the override-resolution claims: the
values of the override properties with id unit, over a flattened property
list, in scan order. -/
def unitValuesOf : List OverrideProperty → List Json
  | [] => []
  | o :: rest => if o.id == "unit" then o.value :: unitValuesOf rest else unitValuesOf rest

/-- Spec-side characterization: the unit-override values of a FieldConfig in
override order. -/
def unitValues (ovs : List Override) : List Json :=
  unitValuesOf ((ovs.map Override.overrideProperties).flatten)

/-- Spec-side characterization: the value of the first property with id
mappings and non-null value, over a flattened property list. -/
def firstMappingOf : List OverrideProperty → Option Json
  | [] => none
  | o :: rest =>
    if o.id == "mappings" && !(o.value.isNull) then some o.value else firstMappingOf rest

/-- Spec-side characterization: the earliest non-null mappings override
value of a FieldConfig. -/
def firstMappingValue (ovs : List Override) : Option Json :=
  firstMappingOf ((ovs.map Override.overrideProperties).flatten)

end Rules

/-! Concrete inputs used by the witnesses and counterexamples. -/

def sampleDashboard : Rules.Dashboard := ⟨"dash"⟩

/-- Gauge panel whose only unit configuration is the default unit xyz. -/
def gaugeXyzPanel : Rules.Panel :=
  ⟨1, "p", "gauge", Rules.RawMessage.absent, some ⟨⟨"xyz", Rules.RawMessage.absent⟩, []⟩⟩

/-- Gauge panel whose only unit configuration is the default unit celsius. -/
def gaugeCelsiusPanel : Rules.Panel :=
  ⟨1, "p", "gauge", Rules.RawMessage.absent, some ⟨⟨"celsius", Rules.RawMessage.absent⟩, []⟩⟩

/-- FieldConfig carrying one unit override with value bytes over a default
unit celsius. -/
def bytesOverCelsiusConfig : Rules.FieldConfig :=
  ⟨⟨"celsius", Rules.RawMessage.absent⟩, [⟨[⟨"unit", Json.str "bytes"⟩]⟩]⟩

def bytesOverCelsiusPanel : Rules.Panel :=
  ⟨5, "p", "gauge", Rules.RawMessage.absent, some bytesOverCelsiusConfig⟩

/-- FieldConfig carrying two unit overrides, bytes first and celsius
second. -/
def twoUnitOverridesConfig : Rules.FieldConfig :=
  ⟨⟨"", Rules.RawMessage.absent⟩, [⟨[⟨"unit", Json.str "bytes"⟩]⟩, ⟨[⟨"unit", Json.str "celsius"⟩]⟩]⟩

def twoUnitOverridesPanel : Rules.Panel :=
  ⟨2, "p", "gauge", Rules.RawMessage.absent, some twoUnitOverridesConfig⟩

/-- FieldConfig carrying one non-null mappings override. -/
def mappingsOverrideConfig : Rules.FieldConfig :=
  ⟨⟨"xyz", Rules.RawMessage.absent⟩, [⟨[⟨"mappings", Json.arr []⟩]⟩]⟩

def mappingsOverridePanel : Rules.Panel :=
  ⟨4, "p", "gauge", Rules.RawMessage.absent, some mappingsOverrideConfig⟩

/-- Gauge panel whose default mappings bytes do not parse and whose unit is
empty. -/
def brokenMappingsPanel : Rules.Panel :=
  ⟨3, "p", "gauge", Rules.RawMessage.absent, some ⟨⟨"", Rules.RawMessage.invalid "bad"⟩, []⟩⟩

/-- Raw template object of type query whose query value is an object with a
query string. -/
def queryObjectTemplateJson : Json :=
  Json.obj [("type", Json.str "query"), ("query", Json.obj [("query", Json.str "label_values(job)")])]

/-- Raw template object of type query whose query value is an object without
a query key. -/
def emptyQueryObjectTemplateJson : Json :=
  Json.obj [("type", Json.str "query"), ("query", Json.obj [])]

/-- Raw template object of type adhoc with the same object-shaped query. -/
def adhocTemplateJson : Json :=
  Json.obj [("type", Json.str "adhoc"), ("query", Json.obj [("query", Json.str "label_values(job)")])]

/-- The raw struct decoded from queryObjectTemplateJson. -/
def queryObjectRaw : Lint.RawTemplate :=
  ⟨"", "", "query", Json.obj [("query", Json.str "label_values(job)")], "", false, "", Lint.zeroTemplateValue, [], 0⟩

/-- The raw struct decoded from adhocTemplateJson. -/
def adhocRaw : Lint.RawTemplate :=
  ⟨"", "", "adhoc", Json.obj [("query", Json.str "label_values(job)")], "", false, "", Lint.zeroTemplateValue, [], 0⟩

/-- TemplateValue object whose text is an empty array. -/
def emptyArrayTextJson : Json := Json.obj [("text", Json.arr [])]

/-- Row of two panels and one top-level panel, the first row panel carrying
two targets. -/
def flattenSampleDashboard : Lint.Dashboard :=
  ⟨"d", [],
   [⟨[Lint.Panel.mk 1 "a" "" [⟨7, "e1", 0, "A", ""⟩, ⟨7, "e2", 0, "B", ""⟩] "" "graph" [] ⟨⟨""⟩, []⟩,
      Lint.Panel.mk 2 "b" "" [] "" "graph" [] ⟨⟨""⟩, []⟩]⟩],
   [Lint.Panel.mk 3 "c" "" [⟨9, "e3", 0, "C", ""⟩] "" "graph" [] ⟨⟨""⟩, []⟩]⟩

/-- First element of the flatten of flattenSampleDashboard: the first row
panel with its target indices assigned. -/
def flattenedFirst : Lint.Panel :=
  Lint.Panel.mk 1 "a" "" [⟨0, "e1", 0, "A", ""⟩, ⟨1, "e2", 0, "B", ""⟩] "" "graph" [] ⟨⟨""⟩, []⟩

def flattenedSecond : Lint.Panel :=
  Lint.Panel.mk 2 "b" "" [] "" "graph" [] ⟨⟨""⟩, []⟩

def flattenedThird : Lint.Panel :=
  Lint.Panel.mk 3 "c" "" [⟨0, "e3", 0, "C", ""⟩] "" "graph" [] ⟨⟨""⟩, []⟩

/-! Helper lemmas. -/

theorem map_eq_append_split {α β : Type} (f : α → β) :
    ∀ (a : List β) (us : List α) (b : List β), us.map f = a ++ b →
      ∃ u1 u2, us = u1 ++ u2 ∧ u1.map f = a ∧ u2.map f = b := by
  intro a
  induction a with
  | nil => exact fun us b h => ⟨[], us, rfl, rfl, h⟩
  | cons x a ih =>
    intro us b h
    cases us with
    | nil => simp at h
    | cons u us2 =>
      simp only [List.map_cons, List.cons_append, List.cons.injEq] at h
      obtain ⟨hx, hrest⟩ := h
      obtain ⟨u1, u2, hsplit, h1, h2⟩ := ih us2 b hrest
      exact ⟨u :: u1, u2, by rw [hsplit]; rfl, by simp [h1, hx], h2⟩

theorem getLastD_append_eq {α : Type} :
    ∀ (us1 us2 : List α) (acc : α), (us1 ++ us2).getLastD acc = us2.getLastD (us1.getLastD acc) := by
  intro us1
  induction us1 with
  | nil => intro us2 acc; rfl
  | cons a t ih =>
    intro us2 acc
    simp only [List.cons_append, List.getLastD_cons]
    exact ih us2 a

theorem Rules.unitValuesOf_append :
    ∀ (a b : List Rules.OverrideProperty),
      Rules.unitValuesOf (a ++ b) = Rules.unitValuesOf a ++ Rules.unitValuesOf b := by
  intro a b
  induction a with
  | nil => rfl
  | cons o rest ih =>
    simp only [List.cons_append, Rules.unitValuesOf]
    by_cases hid : (o.id == "unit") = true
    · simp [hid, ih]
    · simp [hid, ih]

theorem Rules.scanUnitProps_eq :
    ∀ (props : List Rules.OverrideProperty) (acc : String) (us : List String),
      Rules.unitValuesOf props = us.map Json.str →
      Rules.scanUnitProps props acc = GoOutcome.ok (us.getLastD acc) := by
  intro props
  induction props with
  | nil =>
    intro acc us h
    simp only [Rules.unitValuesOf] at h
    cases us with
    | nil => rfl
    | cons x t => simp at h
  | cons o rest ih =>
    intro acc us h
    simp only [Rules.unitValuesOf] at h
    by_cases hid : (o.id == "unit") = true
    · rw [if_pos hid] at h
      cases us with
      | nil => simp at h
      | cons u ut =>
        simp only [List.map_cons, List.cons.injEq] at h
        obtain ⟨hv, hrest⟩ := h
        simp only [Rules.scanUnitProps, hid, if_pos, hv]
        rw [ih u ut hrest, List.getLastD_cons]
    · rw [if_neg hid] at h
      simp only [Rules.scanUnitProps, hid, if_false, Bool.false_eq_true]
      exact ih acc us h

theorem Rules.scanUnitOverrides_eq :
    ∀ (ovs : List Rules.Override) (acc : String) (us : List String),
      Rules.unitValues ovs = us.map Json.str →
      Rules.scanUnitOverrides ovs acc = GoOutcome.ok (us.getLastD acc) := by
  intro ovs
  induction ovs with
  | nil =>
    intro acc us h
    simp only [Rules.unitValues, List.map_nil, List.flatten_nil, Rules.unitValuesOf] at h
    cases us with
    | nil => rfl
    | cons x t => simp at h
  | cons ov rest ih =>
    intro acc us h
    have hsplit : Rules.unitValuesOf ov.overrideProperties ++ Rules.unitValues rest = us.map Json.str := by
      simpa [Rules.unitValues, Rules.unitValuesOf_append] using h
    obtain ⟨us1, us2, hu, h1, h2⟩ :=
      map_eq_append_split Json.str (Rules.unitValuesOf ov.overrideProperties) us (Rules.unitValues rest) hsplit.symm
    cases hp : ov.overrideProperties with
    | nil =>
      have h1nil : us1 = [] := by
        rw [hp] at h1
        simp only [Rules.unitValuesOf] at h1
        cases us1 with
        | nil => rfl
        | cons x t => simp at h1
      simp only [Rules.scanUnitOverrides, hp, List.length_nil, gt_iff_lt, lt_self_iff_false, if_false]
      rw [hu, h1nil, List.nil_append]
      exact ih acc us2 h2.symm
    | cons p ps =>
      have hprops := Rules.scanUnitProps_eq ov.overrideProperties acc us1 h1.symm
      simp only [Rules.scanUnitOverrides, hp] at hprops ⊢
      simp only [List.length_cons, gt_iff_lt, Nat.zero_lt_succ, if_true]
      rw [hprops]
      show Rules.scanUnitOverrides rest (us1.getLastD acc) = GoOutcome.ok (us.getLastD acc)
      rw [ih (us1.getLastD acc) us2 h2.symm, hu, getLastD_append_eq]

theorem Rules.validUnits_not_contains_empty : Rules.validUnits.contains "" = false := by decide

theorem Rules.scanMappingsProps_eq :
    ∀ (props : List Rules.OverrideProperty),
      Rules.scanMappingsProps props = Rules.firstMappingOf props := by
  intro props
  induction props with
  | nil => rfl
  | cons o rest ih => simp only [Rules.scanMappingsProps, Rules.firstMappingOf, ih]

theorem Rules.firstMappingOf_append :
    ∀ (a b : List Rules.OverrideProperty),
      Rules.firstMappingOf (a ++ b) =
        (match Rules.firstMappingOf a with
         | some v => some v
         | none => Rules.firstMappingOf b) := by
  intro a b
  induction a with
  | nil => rfl
  | cons o rest ih =>
    simp only [List.cons_append, Rules.firstMappingOf]
    by_cases hid : (o.id == "mappings" && !(o.value.isNull)) = true
    · simp [hid]
    · simp only [hid, if_false, Bool.false_eq_true]
      exact ih

theorem Rules.scanMappingsOverrides_eq :
    ∀ (ovs : List Rules.Override),
      Rules.scanMappingsOverrides ovs = Rules.firstMappingValue ovs := by
  intro ovs
  induction ovs with
  | nil => rfl
  | cons ov rest ih =>
    have happ :
        Rules.firstMappingValue (ov :: rest) =
          (match Rules.firstMappingOf ov.overrideProperties with
           | some v => some v
           | none => Rules.firstMappingValue rest) := by
      simp only [Rules.firstMappingValue, List.map_cons, List.flatten_cons]
      exact Rules.firstMappingOf_append ov.overrideProperties ((rest.map Rules.Override.overrideProperties).flatten)
    rw [happ]
    cases hp : ov.overrideProperties with
    | nil =>
      simp only [Rules.scanMappingsOverrides, hp, List.length_nil, gt_iff_lt, lt_self_iff_false, if_false]
      simp only [Rules.firstMappingOf]
      exact ih
    | cons p ps =>
      simp only [Rules.scanMappingsOverrides, hp, List.length_cons, gt_iff_lt, Nat.zero_lt_succ, if_true]
      rw [show Rules.scanMappingsProps (p :: ps) = Rules.firstMappingOf (p :: ps) from Rules.scanMappingsProps_eq (p :: ps)]
      cases Rules.firstMappingOf (p :: ps) with
      | none => exact ih
      | some v => rfl

theorem Rules.getConfiguredUnit_scan (p : Rules.Panel) (fc : Rules.FieldConfig)
    (hfc : p.fieldConfig = some fc) (us : List String)
    (h : Rules.unitValues fc.overrides = us.map Json.str) (hne : us ≠ [])
    (hlast : us.getLastD "" ≠ "") :
    Rules.getConfiguredUnit p = GoOutcome.ok (us.getLastD "") := by
  have hovs : fc.overrides ≠ [] := by
    intro hovnil
    rw [hovnil] at h
    have : us.map Json.str = [] := h.symm
    exact hne (List.map_eq_nil_iff.mp this)
  have hlen : fc.overrides.length > 0 := List.length_pos.mpr hovs
  simp only [Rules.getConfiguredUnit, hfc, hlen, if_true]
  rw [Rules.scanUnitOverrides_eq fc.overrides "" us h]
  have hbeq : (us.getLastD "" == "") = false := beq_eq_false_iff_ne.mpr hlast
  simp only [hbeq, Bool.false_eq_true, if_false]

theorem Rules.getConfiguredUnit_default (p : Rules.Panel) (fc : Rules.FieldConfig)
    (hfc : p.fieldConfig = some fc) (h : Rules.unitValues fc.overrides = []) :
    Rules.getConfiguredUnit p = GoOutcome.ok fc.defaults.unit := by
  have hscan : (if fc.overrides.length > 0 then Rules.scanUnitOverrides fc.overrides "" else GoOutcome.ok "") = GoOutcome.ok "" := by
    by_cases hl : fc.overrides.length > 0
    · simp only [hl, if_true]
      exact Rules.scanUnitOverrides_eq fc.overrides "" [] (by simpa using h)
    · simp [hl]
  simp only [Rules.getConfiguredUnit, hfc, hscan]
  by_cases hu : fc.defaults.unit = ""
  · simp [hu]
  · have hbne : (fc.defaults.unit != "") = true := bne_iff_ne.mpr hu
    simp [hbne]

theorem Rules.getValueMappings_first (p : Rules.Panel) (fc : Rules.FieldConfig)
    (hfc : p.fieldConfig = some fc) (j : Json)
    (h : Rules.firstMappingValue fc.overrides = some j) :
    Rules.getValueMappings p = (j, none) := by
  have hovs : fc.overrides ≠ [] := by
    intro hnil
    rw [hnil] at h
    simp [Rules.firstMappingValue, Rules.firstMappingOf] at h
  have hlen : fc.overrides.length > 0 := List.length_pos.mpr hovs
  simp only [Rules.getValueMappings, hfc, hlen, if_true, Rules.scanMappingsOverrides_eq, h]

theorem Rules.contains_validUnits_ne_empty (u : String)
    (h : Rules.validUnits.contains u = true) : u ≠ "" := by
  intro he
  subst he
  rw [Rules.validUnits_not_contains_empty] at h
  exact Bool.false_ne_true h

/-- Claim C1: for every panel whose FieldConfig carries one override
property with id unit and a string value that is a recognized unit, the unit
resolved by getConfiguredUnit is that override value, whatever
Defaults.Unit holds — the override wins over the default. -/
theorem C1_override_unit_wins (p : Rules.Panel) (fc : Rules.FieldConfig) (v : String)
    (hfc : p.fieldConfig = some fc)
    (hov : Rules.unitValues fc.overrides = [Json.str v])
    (hvalid : Rules.validUnits.contains v = true) :
    Rules.getConfiguredUnit p = GoOutcome.ok v := by
  have hne := Rules.contains_validUnits_ne_empty v hvalid
  have h := Rules.getConfiguredUnit_scan p fc hfc [v] (by simpa using hov) (by simp) (by simpa using hne)
  simpa using h

/-- Witness for C1: a unit override bytes over a default celsius resolves to
bytes. -/
theorem C1_override_unit_wins_witness :
    Rules.getConfiguredUnit bytesOverCelsiusPanel = GoOutcome.ok "bytes" :=
  C1_override_unit_wins bytesOverCelsiusPanel bytesOverCelsiusConfig "bytes" rfl rfl rfl

/-- Counterexample for C2: with two unit override properties, bytes before
celsius, the resolved unit is the later celsius, not the earliest bytes the
claim requires. -/
theorem C2_counterexample_last_wins :
    Rules.getConfiguredUnit twoUnitOverridesPanel = GoOutcome.ok "celsius" ∧
    (Rules.unitValues twoUnitOverridesConfig.overrides).head? = some (Json.str "bytes") ∧
    Rules.getConfiguredUnit twoUnitOverridesPanel ≠ GoOutcome.ok "bytes" :=
  ⟨rfl, rfl, by decide⟩

/-- Claim C2 as amended: for the unit, the LAST override property with id
unit wins (falling back to Defaults.Unit when the scan result is empty, in
particular when no override supplies the unit); for the mappings, the first
override property with id mappings and non-null value wins. -/
theorem C2_amended_resolution (p : Rules.Panel) (fc : Rules.FieldConfig)
    (hfc : p.fieldConfig = some fc) :
    (∀ us : List String, Rules.unitValues fc.overrides = us.map Json.str → us ≠ [] →
        us.getLastD "" ≠ "" → Rules.getConfiguredUnit p = GoOutcome.ok (us.getLastD "")) ∧
    (Rules.unitValues fc.overrides = [] →
        Rules.getConfiguredUnit p = GoOutcome.ok fc.defaults.unit) ∧
    (∀ j : Json, Rules.firstMappingValue fc.overrides = some j →
        Rules.getValueMappings p = (j, none)) :=
  ⟨fun us h hne hl => Rules.getConfiguredUnit_scan p fc hfc us h hne hl,
   fun h => Rules.getConfiguredUnit_default p fc hfc h,
   fun j h => Rules.getValueMappings_first p fc hfc j h⟩

/-- Witness for the amended C2: the later of two unit overrides wins, and a
non-null mappings override is returned as the resolved mappings. -/
theorem C2_amended_resolution_witness :
    Rules.getConfiguredUnit twoUnitOverridesPanel = GoOutcome.ok "celsius" ∧
    Rules.getValueMappings mappingsOverridePanel = (Json.arr [], none) := by
  constructor
  · have h := (C2_amended_resolution twoUnitOverridesPanel twoUnitOverridesConfig rfl).1
      ["bytes", "celsius"] rfl (by simp) (by decide)
    simpa using h
  · exact (C2_amended_resolution mappingsOverridePanel mappingsOverrideConfig rfl).2.2
      (Json.arr []) rfl

/-- Counterexample for C3: a gauge panel whose default mappings do not parse
and whose unit is empty yields TWO results — the mapping decode error and
then the unit error — not exactly one as the claim requires: the rule does
not return after reporting the decode error. -/
theorem C3_counterexample_two_results :
    Rules.NewPanelUnitsRule.fn sampleDashboard brokenMappingsPanel =
      GoOutcome.ok [Rules.addError sampleDashboard brokenMappingsPanel "bad",
        Rules.addError sampleDashboard brokenMappingsPanel "has no or invalid units defined: \x27\x27"] ∧
    Rules.NewPanelUnitsRule.fn sampleDashboard brokenMappingsPanel ≠
      GoOutcome.ok [Rules.addError sampleDashboard brokenMappingsPanel "bad"] :=
  ⟨rfl, by decide⟩

/-- Claim C3 as amended: when resolving the value mappings of an in-scope
panel fails with a decode error, the rule emits an error result carrying the
decode error message and then CONTINUES with the unit check in the same
pass, so the panel additionally yields the invalid-units error when its
resolved unit is missing or invalid. -/
theorem C3_amended_reports_and_continues (d : Rules.Dashboard) (p : Rules.Panel) (e u : String)
    (hscope : Rules.isInScope p.type = true)
    (hstat : (p.type == "stat" && Rules.statSkip p) = false)
    (hvm : Rules.getValueMappings p = (Json.null, some e))
    (hu : Rules.getConfiguredUnit p = GoOutcome.ok u) :
    Rules.NewPanelUnitsRule.fn d p =
      GoOutcome.ok ([Rules.addError d p e] ++
        (if u != "" && Rules.validUnits.contains u then []
         else [Rules.addError d p ("has no or invalid units defined: \x27" ++ u ++ "\x27")])) := by
  show Rules.unitsRuleFn d p = _
  simp only [Rules.unitsRuleFn, hscope, if_true, hstat, Bool.false_eq_true, if_false, hvm, hu,
    Json.isNull]
  split <;> simp

/-- Witness for the amended C3: the broken-mappings gauge panel with an
empty unit yields the mapping error followed by the unit error. -/
theorem C3_amended_reports_and_continues_witness :
    Rules.NewPanelUnitsRule.fn sampleDashboard brokenMappingsPanel =
      GoOutcome.ok [Rules.addError sampleDashboard brokenMappingsPanel "bad",
        Rules.addError sampleDashboard brokenMappingsPanel "has no or invalid units defined: \x27\x27"] := by
  have h := C3_amended_reports_and_continues sampleDashboard brokenMappingsPanel "bad" ""
    rfl rfl rfl rfl
  simpa using h

/-- Claim C6: a gauge panel with no value mappings and resolved unit xyz
yields exactly one Error result with the invalid-units message naming xyz,
and the same panel with resolved unit celsius yields zero results. -/
theorem C6_gauge_unit_example (d : Rules.Dashboard) (p : Rules.Panel)
    (htype : p.type = "gauge")
    (hvm : Rules.getValueMappings p = (Json.null, none)) :
    (Rules.getConfiguredUnit p = GoOutcome.ok "xyz" →
      Rules.NewPanelUnitsRule.fn d p =
        GoOutcome.ok [Rules.addError d p "has no or invalid units defined: \x27xyz\x27"]) ∧
    (Rules.getConfiguredUnit p = GoOutcome.ok "celsius" →
      Rules.NewPanelUnitsRule.fn d p = GoOutcome.ok []) := by
  have hscope : Rules.isInScope "gauge" = true := rfl
  have hstat : ("gauge" == "stat") = false := rfl
  constructor
  · intro hu
    show Rules.unitsRuleFn d p = _
    simp only [Rules.unitsRuleFn, htype, hscope, if_true, hstat, Bool.false_and,
      Bool.false_eq_true, if_false, hvm, hu, Json.isNull]
    have hxyz : ("xyz" != "" && Rules.validUnits.contains "xyz") = false := by decide
    simp only [hxyz, Bool.false_eq_true, if_false, List.nil_append]
    rfl
  · intro hu
    show Rules.unitsRuleFn d p = _
    simp only [Rules.unitsRuleFn, htype, hscope, if_true, hstat, Bool.false_and,
      Bool.false_eq_true, if_false, hvm, hu, Json.isNull]
    have hcel : ("celsius" != "" && Rules.validUnits.contains "celsius") = true := by decide
    simp only [hcel, if_true]

/-- Witness for C6: the two concrete gauge panels of the spec example. -/
theorem C6_gauge_unit_example_witness :
    Rules.NewPanelUnitsRule.fn sampleDashboard gaugeXyzPanel =
      GoOutcome.ok [Rules.addError sampleDashboard gaugeXyzPanel "has no or invalid units defined: \x27xyz\x27"] ∧
    Rules.NewPanelUnitsRule.fn sampleDashboard gaugeCelsiusPanel = GoOutcome.ok [] :=
  ⟨(C6_gauge_unit_example sampleDashboard gaugeXyzPanel rfl rfl).1 rfl,
   (C6_gauge_unit_example sampleDashboard gaugeCelsiusPanel rfl rfl).2 rfl⟩

/-- Claim C7: every in-scope panel whose value mappings resolve without
error to a non-null value yields zero results, whatever its unit. -/
theorem C7_mappings_skip_unit_check (d : Rules.Dashboard) (p : Rules.Panel) (v : Json)
    (hscope : Rules.isInScope p.type = true)
    (hvm : Rules.getValueMappings p = (v, none))
    (hnn : v.isNull = false) :
    Rules.NewPanelUnitsRule.fn d p = GoOutcome.ok [] := by
  show Rules.unitsRuleFn d p = _
  simp only [Rules.unitsRuleFn, hscope, if_true]
  by_cases hs : (p.type == "stat" && Rules.statSkip p) = true
  · simp [hs]
  · simp only [Bool.not_eq_true] at hs
    simp only [hs, Bool.false_eq_true, if_false, hvm, hnn]

/-- Witness for C7: a gauge panel with an invalid default unit but a
non-null mappings override yields zero results. -/
theorem C7_mappings_skip_unit_check_witness :
    Rules.NewPanelUnitsRule.fn sampleDashboard mappingsOverridePanel = GoOutcome.ok [] :=
  C7_mappings_skip_unit_check sampleDashboard mappingsOverridePanel (Json.arr []) rfl rfl rfl

/-- Claim C5: decoding a Datasource normalizes exactly three JSON shapes —
null to the empty string, a string to itself, an object with a string uid to
that uid — and every other shape (a bool, a number, an array, or an object
without a string-valued uid) is a decode error. -/
theorem C5_datasource_shapes :
    (Lint.Datasource.unmarshalJSON Json.null = GoOutcome.ok "") ∧
    (∀ s : String, Lint.Datasource.unmarshalJSON (Json.str s) = GoOutcome.ok s) ∧
    (∀ (kvs : List (String × Json)) (u : String), goMapGet kvs "uid" = some (Json.str u) →
      Lint.Datasource.unmarshalJSON (Json.obj kvs) = GoOutcome.ok u) ∧
    (∀ kvs : List (String × Json), (∀ u : String, goMapGet kvs "uid" ≠ some (Json.str u)) →
      (Lint.Datasource.unmarshalJSON (Json.obj kvs)).isErr = true) ∧
    (∀ b : Bool, (Lint.Datasource.unmarshalJSON (Json.bool b)).isErr = true) ∧
    (∀ n : Int, (Lint.Datasource.unmarshalJSON (Json.num n)).isErr = true) ∧
    (∀ xs : List Json, (Lint.Datasource.unmarshalJSON (Json.arr xs)).isErr = true) := by
  refine ⟨rfl, fun s => rfl, ?_, ?_, fun b => rfl, fun n => rfl, fun xs => rfl⟩
  · intro kvs u h
    simp only [Lint.Datasource.unmarshalJSON, h]
  · intro kvs h
    simp only [Lint.Datasource.unmarshalJSON]
    cases hm : goMapGet kvs "uid" with
    | none => rfl
    | some v =>
      cases v with
      | str u => exact absurd hm (h u)
      | null => rfl
      | bool b => rfl
      | num n => rfl
      | arr xs => rfl
      | obj kvs2 => rfl

/-- Witness for C5: the uid-object shape resolves to the uid and a number is
a decode error. -/
theorem C5_datasource_shapes_witness :
    Lint.Datasource.unmarshalJSON (Json.obj [("uid", Json.str "ds-uid")]) = GoOutcome.ok "ds-uid" ∧
    (Lint.Datasource.unmarshalJSON (Json.num 5)).isErr = true :=
  ⟨C5_datasource_shapes.2.2.1 [("uid", Json.str "ds-uid")] "ds-uid" rfl,
   C5_datasource_shapes.2.2.2.2.2.1 5⟩

/-- Claim C10: OverrideProperty.UnmarshalJSON never returns an error and
never assigns the parsed fields, so the receiver — the zero value, with
empty id and value, when decoding fresh — comes back unchanged for every
input, valid JSON or not. -/
theorem C10_override_property_decode_noop :
    ∀ (o : Lint.OverrideProperty) (buf : Option Json),
      Lint.OverrideProperty.unmarshalJSON o buf = GoOutcome.ok o := by
  intro o buf
  unfold Lint.OverrideProperty.unmarshalJSON
  cases Lint.decodeIdValueString buf <;> cases Lint.decodeIdValueInt buf <;> rfl

/-- Counterexample for C9: an empty array under the text key makes
TemplateValue.UnmarshalJSON panic on the index expression; it does not
return a decode error as the claim requires. -/
theorem C9_counterexample_empty_array_panics :
    (Lint.TemplateValue.unmarshalJSON Lint.zeroTemplateValue emptyArrayTextJson).isPanic = true ∧
    (Lint.TemplateValue.unmarshalJSON Lint.zeroTemplateValue emptyArrayTextJson).isErr = false :=
  ⟨rfl, rfl⟩

/-- Claim C9 as amended: text and value each accept a string (verbatim) or
an array whose first element is a string (that element); a present value of
any other shape that is not an array is a decode error; but an empty array,
or an array whose first element is not a string, causes a runtime panic, not
a decode error; an absent key leaves the field at its zero value without
error. -/
theorem C9_amended_template_value_decode (t : Lint.TemplateValue) (kvs : List (String × Json)) :
    (goMapGet kvs "text" = none → goMapGet kvs "value" = none →
      Lint.TemplateValue.unmarshalJSON t (Json.obj kvs) = GoOutcome.ok t) ∧
    (∀ s, goMapGet kvs "text" = some (Json.str s) → goMapGet kvs "value" = none →
      Lint.TemplateValue.unmarshalJSON t (Json.obj kvs) = GoOutcome.ok ⟨s, t.value⟩) ∧
    (∀ s, goMapGet kvs "text" = none → goMapGet kvs "value" = some (Json.str s) →
      Lint.TemplateValue.unmarshalJSON t (Json.obj kvs) = GoOutcome.ok ⟨t.text, s⟩) ∧
    (∀ s rest, goMapGet kvs "text" = some (Json.arr (Json.str s :: rest)) → goMapGet kvs "value" = none →
      Lint.TemplateValue.unmarshalJSON t (Json.obj kvs) = GoOutcome.ok ⟨s, t.value⟩) ∧
    (goMapGet kvs "text" = some (Json.arr []) →
      (Lint.TemplateValue.unmarshalJSON t (Json.obj kvs)).isPanic = true) ∧
    (∀ x rest, goMapGet kvs "text" = some (Json.arr (x :: rest)) → x.isStr = false →
      (Lint.TemplateValue.unmarshalJSON t (Json.obj kvs)).isPanic = true) ∧
    (∀ v, goMapGet kvs "text" = some v → v.isStr = false → v.isArr = false →
      (Lint.TemplateValue.unmarshalJSON t (Json.obj kvs)).isErr = true) ∧
    (∀ s rest, goMapGet kvs "text" = none → goMapGet kvs "value" = some (Json.arr (Json.str s :: rest)) →
      Lint.TemplateValue.unmarshalJSON t (Json.obj kvs) = GoOutcome.ok ⟨t.text, s⟩) ∧
    (goMapGet kvs "text" = none → goMapGet kvs "value" = some (Json.arr []) →
      (Lint.TemplateValue.unmarshalJSON t (Json.obj kvs)).isPanic = true) ∧
    (∀ x rest, goMapGet kvs "text" = none → goMapGet kvs "value" = some (Json.arr (x :: rest)) →
      x.isStr = false → (Lint.TemplateValue.unmarshalJSON t (Json.obj kvs)).isPanic = true) ∧
    (∀ v, goMapGet kvs "text" = none → goMapGet kvs "value" = some v → v.isStr = false →
      v.isArr = false → (Lint.TemplateValue.unmarshalJSON t (Json.obj kvs)).isErr = true) ∧
    (∀ s u rest, goMapGet kvs "text" = some (Json.str s) →
      goMapGet kvs "value" = some (Json.arr (Json.str u :: rest)) →
      Lint.TemplateValue.unmarshalJSON t (Json.obj kvs) = GoOutcome.ok ⟨s, u⟩) ∧
    (∀ s, goMapGet kvs "text" = some (Json.str s) → goMapGet kvs "value" = some (Json.arr []) →
      (Lint.TemplateValue.unmarshalJSON t (Json.obj kvs)).isPanic = true) ∧
    (∀ s v, goMapGet kvs "text" = some (Json.str s) → goMapGet kvs "value" = some v →
      v.isStr = false → v.isArr = false →
      (Lint.TemplateValue.unmarshalJSON t (Json.obj kvs)).isErr = true) := by
  refine ⟨?_, ?_, ?_, ?_, ?_, ?_, ?_, ?_, ?_, ?_, ?_, ?_, ?_, ?_⟩
  · intro ht hv
    simp only [Lint.TemplateValue.unmarshalJSON, ht, Lint.TemplateValue.handleValue, hv]
  · intro s ht hv
    simp only [Lint.TemplateValue.unmarshalJSON, ht, Lint.decodeStrOrFirstOfArray,
      Lint.TemplateValue.handleValue, hv]
  · intro s ht hv
    simp only [Lint.TemplateValue.unmarshalJSON, ht, Lint.TemplateValue.handleValue, hv,
      Lint.decodeStrOrFirstOfArray]
  · intro s rest ht hv
    simp only [Lint.TemplateValue.unmarshalJSON, ht, Lint.decodeStrOrFirstOfArray,
      Lint.TemplateValue.handleValue, hv]
  · intro ht
    simp only [Lint.TemplateValue.unmarshalJSON, ht, Lint.decodeStrOrFirstOfArray,
      GoOutcome.isPanic]
  · intro x rest ht hx
    simp only [Lint.TemplateValue.unmarshalJSON, ht]
    cases x with
    | str s => simp [Json.isStr] at hx
    | null => rfl
    | bool b => rfl
    | num n => rfl
    | arr xs => rfl
    | obj kvs2 => rfl
  · intro v ht hs ha
    simp only [Lint.TemplateValue.unmarshalJSON, ht]
    cases v with
    | str s => simp [Json.isStr] at hs
    | arr xs => simp [Json.isArr] at ha
    | null => rfl
    | bool b => rfl
    | num n => rfl
    | obj kvs2 => rfl
  · intro s rest ht hv
    simp only [Lint.TemplateValue.unmarshalJSON, ht, Lint.TemplateValue.handleValue, hv,
      Lint.decodeStrOrFirstOfArray]
  · intro ht hv
    simp only [Lint.TemplateValue.unmarshalJSON, ht, Lint.TemplateValue.handleValue, hv,
      Lint.decodeStrOrFirstOfArray, GoOutcome.isPanic]
  · intro x rest ht hv hx
    simp only [Lint.TemplateValue.unmarshalJSON, ht, Lint.TemplateValue.handleValue, hv]
    cases x with
    | str s => simp [Json.isStr] at hx
    | null => rfl
    | bool b => rfl
    | num n => rfl
    | arr xs => rfl
    | obj kvs2 => rfl
  · intro v ht hv hs ha
    simp only [Lint.TemplateValue.unmarshalJSON, ht, Lint.TemplateValue.handleValue, hv]
    cases v with
    | str s => simp [Json.isStr] at hs
    | arr xs => simp [Json.isArr] at ha
    | null => rfl
    | bool b => rfl
    | num n => rfl
    | obj kvs2 => rfl
  · intro s u rest ht hv
    simp only [Lint.TemplateValue.unmarshalJSON, ht, Lint.decodeStrOrFirstOfArray,
      Lint.TemplateValue.handleValue, hv]
  · intro s ht hv
    simp only [Lint.TemplateValue.unmarshalJSON, ht, Lint.decodeStrOrFirstOfArray,
      Lint.TemplateValue.handleValue, hv, GoOutcome.isPanic]
  · intro s v ht hv hs ha
    simp only [Lint.TemplateValue.unmarshalJSON, ht, Lint.decodeStrOrFirstOfArray,
      Lint.TemplateValue.handleValue, hv]
    cases v with
    | str s2 => simp [Json.isStr] at hs
    | arr xs => simp [Json.isArr] at ha
    | null => rfl
    | bool b => rfl
    | num n => rfl
    | obj kvs2 => rfl

/-- Witness for the amended C9: a string text is used verbatim, the
empty-array text panics, and a value holding an array with a string first
element decodes to that element alongside the string text. -/
theorem C9_amended_template_value_decode_witness :
    Lint.TemplateValue.unmarshalJSON Lint.zeroTemplateValue (Json.obj [("text", Json.str "a")]) = GoOutcome.ok ⟨"a", ""⟩ ∧
    (Lint.TemplateValue.unmarshalJSON Lint.zeroTemplateValue emptyArrayTextJson).isPanic = true ∧
    Lint.TemplateValue.unmarshalJSON Lint.zeroTemplateValue
      (Json.obj [("text", Json.str "a"), ("value", Json.arr [Json.str "b"])]) = GoOutcome.ok ⟨"a", "b"⟩ ∧
    (Lint.TemplateValue.unmarshalJSON Lint.zeroTemplateValue
      (Json.obj [("value", Json.arr [])])).isPanic = true :=
  ⟨(C9_amended_template_value_decode Lint.zeroTemplateValue [("text", Json.str "a")]).2.1 "a" rfl rfl,
   (C9_amended_template_value_decode Lint.zeroTemplateValue [("text", Json.arr [])]).2.2.2.2.1 rfl,
   (C9_amended_template_value_decode Lint.zeroTemplateValue
     [("text", Json.str "a"), ("value", Json.arr [Json.str "b"])]).2.2.2.2.2.2.2.2.2.2.2.1 "a" "b" [] rfl rfl,
   (C9_amended_template_value_decode Lint.zeroTemplateValue
     [("value", Json.arr [])]).2.2.2.2.2.2.2.2.1 rfl rfl⟩

/-- Counterexample for C4: a template of type query whose query value is an
object without a query key makes Template.UnmarshalJSON panic on the type
assertion; it does not return a decode error as the claim requires. -/
theorem C4_counterexample_object_query_panics :
    (Lint.Template.unmarshalJSON Lint.zeroTemplate emptyQueryObjectTemplateJson).isPanic = true ∧
    (Lint.Template.unmarshalJSON Lint.zeroTemplate emptyQueryObjectTemplateJson).isErr = false :=
  ⟨rfl, rfl⟩

/-- Claim C4 as amended: when the raw struct decodes and the type is neither
adhoc nor custom, a string query is used verbatim and an object query with a
string under its query key is extracted; an object query whose query key is
absent or not a string causes a runtime panic (not a decode error); any
other query shape, including an absent or null query key, is a decode
error. For type adhoc or custom the query value is never interrogated and
the query field keeps the receiver value — the zero value on a fresh
decode. -/
theorem C4_amended_template_query_decode (t : Lint.Template) (j : Json) (raw : Lint.RawTemplate)
    (hraw : Lint.decodeRawTemplate j = GoOutcome.ok raw) :
    (raw.type ≠ "adhoc" → raw.type ≠ "custom" →
      ((∀ s, raw.query = Json.str s →
          Lint.Template.unmarshalJSON t j =
            GoOutcome.ok (Lint.Template.withQuery (Lint.Template.applyRaw t raw) s)) ∧
       (∀ kvs s, raw.query = Json.obj kvs → goMapGet kvs "query" = some (Json.str s) →
          Lint.Template.unmarshalJSON t j =
            GoOutcome.ok (Lint.Template.withQuery (Lint.Template.applyRaw t raw) s)) ∧
       (∀ kvs, raw.query = Json.obj kvs → (∀ s, goMapGet kvs "query" ≠ some (Json.str s)) →
          (Lint.Template.unmarshalJSON t j).isPanic = true) ∧
       (raw.query.isStr = false → raw.query.isObj = false →
          (Lint.Template.unmarshalJSON t j).isErr = true))) ∧
    ((raw.type = "adhoc" ∨ raw.type = "custom") →
      Lint.Template.unmarshalJSON t j = GoOutcome.ok (Lint.Template.applyRaw t raw)) := by
  have htype : (Lint.Template.applyRaw t raw).type = raw.type := rfl
  constructor
  · intro ha hc
    have hcond : ((Lint.Template.applyRaw t raw).type != "adhoc" &&
        (Lint.Template.applyRaw t raw).type != "custom") = true := by
      rw [htype]
      simp [ha, hc]
    refine ⟨?_, ?_, ?_, ?_⟩
    · intro s hq
      simp only [Lint.Template.unmarshalJSON, hraw, hcond, if_true, hq]
    · intro kvs s hq hk
      simp only [Lint.Template.unmarshalJSON, hraw, hcond, if_true, hq, hk]
    · intro kvs hq hk
      simp only [Lint.Template.unmarshalJSON, hraw, hcond, if_true, hq]
      cases hm : goMapGet kvs "query" with
      | none => rfl
      | some v =>
        cases v with
        | str s => exact absurd hm (hk s)
        | null => rfl
        | bool b => rfl
        | num n => rfl
        | arr xs => rfl
        | obj kvs2 => rfl
    · intro hs ho
      simp only [Lint.Template.unmarshalJSON, hraw, hcond, if_true]
      cases hq : raw.query with
      | str s => rw [hq] at hs; simp [Json.isStr] at hs
      | obj kvs => rw [hq] at ho; simp [Json.isObj] at ho
      | null => rfl
      | bool b => rfl
      | num n => rfl
      | arr xs => rfl
  · intro h
    have hcond : ((Lint.Template.applyRaw t raw).type != "adhoc" &&
        (Lint.Template.applyRaw t raw).type != "custom") = false := by
      rw [htype]
      cases h with
      | inl h1 => simp [h1]
      | inr h2 => simp [h2]
    simp only [Lint.Template.unmarshalJSON, hraw, hcond, Bool.false_eq_true, if_false]

/-- Witness for the amended C4: the query-typed template extracts the query
string from the object shape, and the adhoc-typed template with the very
same query shape never interrogates it and keeps the empty query. -/
theorem C4_amended_template_query_decode_witness :
    Lint.Template.unmarshalJSON Lint.zeroTemplate queryObjectTemplateJson =
      GoOutcome.ok (Lint.Template.withQuery (Lint.Template.applyRaw Lint.zeroTemplate queryObjectRaw) "label_values(job)") ∧
    Lint.Template.unmarshalJSON Lint.zeroTemplate adhocTemplateJson =
      GoOutcome.ok (Lint.Template.applyRaw Lint.zeroTemplate adhocRaw) :=
  ⟨((C4_amended_template_query_decode Lint.zeroTemplate queryObjectTemplateJson queryObjectRaw rfl).1
      (by decide) (by decide)).2.1 [("query", Json.str "label_values(job)")] "label_values(job)" rfl rfl,
   (C4_amended_template_query_decode Lint.zeroTemplate adhocTemplateJson adhocRaw rfl).2 (Or.inl rfl)⟩

theorem Lint.getPanelsList_eq :
    ∀ ps : List Lint.Panel, Lint.Panel.getPanelsList ps = (ps.map Lint.Panel.getPanels).flatten := by
  intro ps
  induction ps with
  | nil => rfl
  | cons p rest ih => simp only [Lint.Panel.getPanelsList, List.map_cons, List.flatten_cons, ih]

/-- Claim C8: Dashboard.GetPanels flattens the row-nested panels first and
the top-level panels after, each panel in depth-first pre-order (the panel
followed by the flatten of its children), and gives every target of every
flattened panel its zero-based position within the owning panel as its
index. -/
theorem C8_flatten_order_and_target_idx (d : Lint.Dashboard) :
    (Lint.Dashboard.getPanels d =
      ((d.rows.map (fun r => (r.panels.map Lint.Panel.getPanels).flatten)).flatten ++
        (d.panels.map Lint.Panel.getPanels).flatten).map Lint.setTargetIdxs) ∧
    (∀ p : Lint.Panel, Lint.Panel.getPanels p = p :: (p.panels.map Lint.Panel.getPanels).flatten) ∧
    (∀ q, q ∈ Lint.Dashboard.getPanels d →
      q.targets.map Lint.Target.idx = (List.range q.targets.length).map Int.ofNat) := by
  have hrow : ∀ r : Lint.Row, Lint.Row.getPanels r = (r.panels.map Lint.Panel.getPanels).flatten :=
    fun r => Lint.getPanelsList_eq r.panels
  have hmain : Lint.Dashboard.getPanels d =
      ((d.rows.map (fun r => (r.panels.map Lint.Panel.getPanels).flatten)).flatten ++
        (d.panels.map Lint.Panel.getPanels).flatten).map Lint.setTargetIdxs := by
    simp only [Lint.Dashboard.getPanels, Lint.getPanelsList_eq]
    have hmaps : d.rows.map Lint.Row.getPanels =
        d.rows.map (fun r => (r.panels.map Lint.Panel.getPanels).flatten) :=
      List.map_congr_left (fun r _ => hrow r)
    rw [hmaps]
  refine ⟨hmain, ?_, ?_⟩
  · intro p
    cases p with
    | mk i t dsc tg ds ty ps fc =>
      simp only [Lint.Panel.getPanels, Lint.getPanelsList_eq, Lint.Panel.panels]
  · intro q hq
    rw [hmain] at hq
    obtain ⟨q0, _, hq0⟩ := List.mem_map.mp hq
    subst hq0
    cases q0 with
    | mk i t dsc tg ds ty ps fc =>
      simp only [Lint.setTargetIdxs, Lint.Panel.targets, List.map_map, List.length_map]
      have hfst : ∀ it : Nat × Lint.Target,
          (Lint.Target.idx ∘ fun it2 => Lint.setTargetIdx it2.fst it2.snd) it = Int.ofNat it.fst :=
        fun it => rfl
      calc tg.enum.map (Lint.Target.idx ∘ fun it => Lint.setTargetIdx it.fst it.snd)
          = tg.enum.map (fun it => Int.ofNat it.fst) := List.map_congr_left (fun it _ => hfst it)
        _ = (tg.enum.map Prod.fst).map Int.ofNat := by rw [List.map_map]; rfl
        _ = (List.range tg.length).map Int.ofNat := by rw [List.enum_map_fst]
        _ = (List.range tg.enum.length).map Int.ofNat := by rw [List.enum_length]

/-- Witness for C8: the sample dashboard with one row of two panels and one
top-level panel flattens to the three panels in row-then-top-level order,
and the first flattened panel carries target indices starting at zero. -/
theorem C8_flatten_order_and_target_idx_witness :
    Lint.Dashboard.getPanels flattenSampleDashboard = [flattenedFirst, flattenedSecond, flattenedThird] ∧
    flattenedFirst.targets.map Lint.Target.idx =
      (List.range flattenedFirst.targets.length).map Int.ofNat := by
  have hflat : Lint.Dashboard.getPanels flattenSampleDashboard =
      [flattenedFirst, flattenedSecond, flattenedThird] := rfl
  refine ⟨hflat, ?_⟩
  exact (C8_flatten_order_and_target_idx flattenSampleDashboard).2.2 flattenedFirst
    (by rw [hflat]; exact List.mem_cons_self _ _)
